import Mathlib

/-!
Verification of the exponentfi credit-card transaction service.

This file gives a shallow embedding of the TypeScript sources:

* `src/types.ts` — the data model (`Account`, `Card`, `Transaction`,
  `Statement`, webhook payload shapes, denial reasons);
* `src/db/index.ts` — the in-memory store (JS `Map`s modelled as
  association lists with first-match lookup and replace-or-append `set`);
* `src/services/approvalLogic.ts` — `processTransaction`, the ordered
  rule chain;
* `src/services/webhookHandler.ts` — `handleTransactionWebhook`, the
  orchestrator doing the idempotency check, record creation and balance
  mutation;
* `src/services/statementGenerator.ts` — `generateStatementForAccount`
  and `calculateMinimumPayment`;
* `src/utils/helpers.ts` — `validateWebhookPayload`.

JS `Date` values are modelled as integer timestamps (only `getTime`
ordering and day arithmetic are used).  Monetary values are integers in
minor currency units, modelled as `Int`.  Async code is sequential in the
source except for interleavings at `await` points, which are modelled
explicitly where a claim is about concurrency.
-/

namespace ExponentFi

/-- `AccountStatus = 'active' | 'frozen' | 'closed'` from `types.ts`. -/
inductive AccountStatus where
  | active
  | frozen
  | closed
  deriving DecidableEq, Repr

/-- `CardStatus = 'active' | 'frozen' | 'cancelled'` from `types.ts`. -/
inductive CardStatus where
  | active
  | frozen
  | cancelled
  deriving DecidableEq, Repr

/-- `TransactionStatus = 'approved' | 'denied'` from `types.ts`. -/
inductive TransactionStatus where
  | approved
  | denied
  deriving DecidableEq, Repr

/-- The six denial reasons of `types.ts`. -/
inductive DenialReason where
  | card_not_found
  | card_not_active
  | account_not_found
  | account_not_active
  | insufficient_credit
  | exceeds_card_limit
  deriving DecidableEq, Repr

/-- `Account` from `types.ts`; amounts in minor units, dates as integer
timestamps. -/
structure Account where
  id : String
  creditLimit : Int
  currentBalance : Int
  status : AccountStatus
  createdAt : Int
  updatedAt : Int
  deriving DecidableEq, Repr

/-- `Card` from `types.ts`.  `spendingLimit` is the optional per-card
limit (`spendingLimit?: number`), `none` when absent. -/
structure Card where
  id : String
  accountId : String
  status : CardStatus
  spendingLimit : Option Int
  createdAt : Int
  updatedAt : Int
  deriving DecidableEq, Repr

/-- `MerchantAddress` from `types.ts`. -/
structure MerchantAddress where
  line1 : String
  line2 : Option String
  city : String
  state : String
  country : String
  deriving DecidableEq, Repr

/-- `Transaction` from `types.ts`. -/
structure Transaction where
  id : String
  cardId : String
  accountId : String
  amount : Int
  currency : String
  merchantCategory : Int
  merchantAddress : MerchantAddress
  status : TransactionStatus
  denialReason : Option DenialReason
  createdAt : Int
  deriving DecidableEq, Repr

/-- `Statement` from `types.ts`. -/
structure Statement where
  id : String
  accountId : String
  periodStart : Int
  periodEnd : Int
  openingBalance : Int
  closingBalance : Int
  totalSpent : Int
  minimumPayment : Int
  dueDate : Int
  createdAt : Int
  deriving DecidableEq, Repr

/-- The nested address of `TransactionWebhookPayload.merchant_data` in
`types.ts`. -/
structure MerchantRawAddress where
  line_1 : String
  line_2 : Option String
  city : String
  state : String
  country : String
  deriving DecidableEq, Repr

/-- `merchant_data` of the webhook payload in `types.ts`. -/
structure MerchantData where
  category : Int
  address : MerchantRawAddress
  deriving DecidableEq, Repr

/-- `TransactionWebhookPayload` from `types.ts`. -/
structure TransactionWebhookPayload where
  id : String
  card_id : String
  amount : Int
  currency : String
  merchant_data : MerchantData
  deriving DecidableEq, Repr

/-- `WebhookResponse` from `types.ts`. -/
structure WebhookResponse where
  approved : Bool
  deriving DecidableEq, Repr

/-- `ApprovalResult` from `types.ts`: verdict plus optional reason and
resolved card/account snapshots. -/
structure ApprovalResult where
  approved : Bool
  reason : Option DenialReason := none
  card : Option Card := none
  account : Option Account := none
  deriving DecidableEq, Repr

/-- `Map.get` of a JS `Map` modelled as first-match association-list
lookup (`db/index.ts` stores entities in `Map<string, T>`). -/
def mapGet {α : Type} : List (String × α) → String → Option α
  | [], _ => none
  | p :: rest, k => if p.1 = k then some p.2 else mapGet rest k

/-- `Map.set` of a JS `Map`: replace the value at an existing key in
place, otherwise append a fresh entry (JS `Map` keys are unique, so
replacing the first occurrence is exact). -/
def mapSet {α : Type} : List (String × α) → String → α → List (String × α)
  | [], k, v => [(k, v)]
  | p :: rest, k, v => if p.1 = k then (k, v) :: rest else p :: mapSet rest k v

/-- The in-memory storage of `db/index.ts`: the four module-level maps
(`accounts`, `cards`, `transactions`) and the `statements` array. -/
structure DbState where
  accounts : List (String × Account)
  cards : List (String × Card)
  transactions : List (String × Transaction)
  statements : List Statement
  deriving DecidableEq, Repr

/-- `accountsDb.updateBalance` from `db/index.ts`: look the account up,
add `amountToAdd` to `currentBalance`, stamp `updatedAt`, store back;
no-op when the account is absent. -/
def updateBalance (accounts : List (String × Account)) (id : String)
    (amountToAdd : Int) (now : Int) : List (String × Account) :=
  match mapGet accounts id with
  | none => accounts
  | some account =>
      mapSet accounts id
        { account with
            currentBalance := account.currentBalance + amountToAdd
            updatedAt := now }

/-- The `deny` helper of `approvalLogic.ts`. -/
def deny (reason : DenialReason) : ApprovalResult :=
  { approved := false, reason := some reason }

/-- The Bool a `TransactionStatus` yields in
`existingTransaction.status === 'approved'`. -/
def statusApproved : TransactionStatus → Bool
  | .approved => true
  | .denied => false

/-- The guard of rule 7 in `approvalLogic.ts`:
`card.spendingLimit && payload.amount > card.spendingLimit`.
JS truthiness makes an absent limit and a limit of `0` both falsy, so the
amount comparison only runs for a present non-zero limit. -/
def cardLimitExceeded (card : Card) (amount : Int) : Bool :=
  match card.spendingLimit with
  | some spendingLimit => decide (spendingLimit ≠ 0) && decide (amount > spendingLimit)
  | none => false

/-- `processTransaction` from `approvalLogic.ts`: the idempotency replay
branch followed by the ordered rule chain, short-circuiting on the first
failing rule. -/
def processTransaction (db : DbState) (payload : TransactionWebhookPayload) :
    ApprovalResult :=
  match mapGet db.transactions payload.id with
  | some existingTransaction =>
      { approved := statusApproved existingTransaction.status
        reason := existingTransaction.denialReason }
  | none =>
    match mapGet db.cards payload.card_id with
    | none => deny .card_not_found
    | some card =>
      if card.status ≠ CardStatus.active then deny .card_not_active
      else
        match mapGet db.accounts card.accountId with
        | none => deny .account_not_found
        | some account =>
          if account.status ≠ AccountStatus.active then deny .account_not_active
          else if account.currentBalance + payload.amount > account.creditLimit then
            deny .insufficient_credit
          else if cardLimitExceeded card payload.amount then
            deny .exceeds_card_limit
          else
            { approved := true, card := some card, account := some account }

/-- The write phase of `handleTransactionWebhook` (steps 2 and 3 of
`webhookHandler.ts`), parameterised by the values its earlier reads
returned: the decision `result` and the `existingTransaction` lookup.
When no record exists it resolves the card (`result.card ?? ` a fresh
lookup), persists the `Transaction`, and on approval adds the amount to
the account balance. -/
def commitPhase (db : DbState) (payload : TransactionWebhookPayload) (now : Int)
    (result : ApprovalResult) (existingTransaction : Option Transaction) : DbState :=
  match existingTransaction with
  | some _ => db
  | none =>
    let card : Option Card :=
      match result.card with
      | some c => some c
      | none => mapGet db.cards payload.card_id
    let tx : Transaction :=
      { id := payload.id
        cardId := payload.card_id
        accountId := match card with
          | some c => c.accountId
          | none => "unknown"
        amount := payload.amount
        currency := payload.currency
        merchantCategory := payload.merchant_data.category
        merchantAddress :=
          { line1 := payload.merchant_data.address.line_1
            line2 := payload.merchant_data.address.line_2
            city := payload.merchant_data.address.city
            state := payload.merchant_data.address.state
            country := payload.merchant_data.address.country }
        status := if result.approved then .approved else .denied
        denialReason := result.reason
        createdAt := now }
    let db1 : DbState := { db with transactions := mapSet db.transactions payload.id tx }
    if result.approved then
      match card with
      | some c => { db1 with accounts := updateBalance db1.accounts c.accountId payload.amount now }
      | none => db1
    else db1

/-- `handleTransactionWebhook` from `webhookHandler.ts`: run the approval
logic, re-check for an existing record, commit, and answer with the
boolean verdict. -/
def handleTransactionWebhook (db : DbState) (payload : TransactionWebhookPayload)
    (now : Int) : DbState × WebhookResponse :=
  let result := processTransaction db payload
  let existingTransaction := mapGet db.transactions payload.id
  (commitPhase db payload now result existingTransaction, { approved := result.approved })

/-- Exact-arithmetic semantics of `Math.ceil(balance * 0.02)` in
`calculateMinimumPayment`: the least integer at least `balance * 2 / 100`
(ceiling division, via floor division of the negation). -/
def ceilTwoPercent (balance : Int) : Int :=
  -((-(balance * 2)).ediv 100)

/-- `calculateMinimumPayment` from `statementGenerator.ts`. -/
def calculateMinimumPayment (balance : Int) : Int :=
  if balance ≤ 0 then 0
  else
    let minimumFloor : Int := 2500
    let percentagePayment := ceilTwoPercent balance
    if balance < minimumFloor then balance
    else max percentagePayment minimumFloor

/-- `transactionsDb.findByAccountAndPeriod` from `db/index.ts`: all
stored transactions of the account whose `createdAt` lies in
`[periodStart, periodEnd]` (both ends inclusive), optionally filtered by
status. -/
def findByAccountAndPeriod (transactions : List (String × Transaction))
    (accountId : String) (periodStart periodEnd : Int)
    (status : Option TransactionStatus) : List Transaction :=
  (transactions.map Prod.snd).filter fun tx =>
    decide (tx.accountId = accountId) &&
    (decide (tx.createdAt ≥ periodStart) && decide (tx.createdAt ≤ periodEnd)) &&
    (match status with
     | some s => decide (tx.status = s)
     | none => true)

/-- One step of the descending-sort-then-head of
`statementsDb.findLatest`: keep the earlier statement unless a strictly
later `periodEnd` appears (JS `sort` is stable, so ties keep the first
occurrence in front). -/
def laterStatement (best : Option Statement) (s : Statement) : Option Statement :=
  match best with
  | none => some s
  | some b => if b.periodEnd < s.periodEnd then some s else some b

/-- `statementsDb.findLatest` from `db/index.ts`: among the account's
statements, the one greatest by `periodEnd` (first such in storage order),
or `none`. -/
def findLatest (statements : List Statement) (accountId : String) : Option Statement :=
  (statements.filter fun s => decide (s.accountId = accountId)).foldl laterStatement none

/-- `addDays` from `helpers.ts`, on day-granularity integer dates. -/
def addDays (date : Int) (days : Int) : Int :=
  date + days

/-- `generateStatementForAccount` from `statementGenerator.ts`: opening
balance from the latest prior statement (or 0), total spent as the sum of
approved transactions in the period, closing = opening + spent, minimum
payment, due date 25 days after period end; the statement is appended to
the store.  `newId` stands for the nondeterministic `generateId()`. -/
def generateStatementForAccount (db : DbState) (accountId : String)
    (periodStart periodEnd : Int) (newId : String) (now : Int) :
    DbState × Statement :=
  let lastStatement := findLatest db.statements accountId
  let openingBalance : Int :=
    match lastStatement with
    | some s => s.closingBalance
    | none => 0
  let transactions :=
    findByAccountAndPeriod db.transactions accountId periodStart periodEnd
      (some TransactionStatus.approved)
  let totalSpent := transactions.foldl (fun sum tx => sum + tx.amount) 0
  let closingBalance := openingBalance + totalSpent
  let minimumPayment := calculateMinimumPayment closingBalance
  let statement : Statement :=
    { id := newId
      accountId := accountId
      periodStart := periodStart
      periodEnd := periodEnd
      openingBalance := openingBalance
      closingBalance := closingBalance
      totalSpent := totalSpent
      minimumPayment := minimumPayment
      dueDate := addDays periodEnd 25
      createdAt := now }
  ({ db with statements := db.statements ++ [statement] }, statement)

/-- A raw webhook body as `validateWebhookPayload` sees it: `none` models
a field that is missing or of the wrong runtime type. -/
structure RawPayload where
  id : Option String
  card_id : Option String
  amount : Option Int
  currency : Option String
  merchant_data : Option MerchantData
  deriving DecidableEq, Repr

/-- The per-field checks of `validateWebhookPayload` in `helpers.ts`.
String fields use truthiness (`!p.id`), so an empty string is also
rejected; the amount check is only `p.amount == null` plus a typeof
check, so any number — zero or negative — passes. -/
def validateWebhookPayload (p : RawPayload) : List String :=
  (match p.id with
   | some s => if s = "" then ["Missing or invalid \"id\" field"] else []
   | none => ["Missing or invalid \"id\" field"]) ++
  (match p.card_id with
   | some s => if s = "" then ["Missing or invalid \"card_id\" field"] else []
   | none => ["Missing or invalid \"card_id\" field"]) ++
  (match p.amount with
   | some _ => []
   | none => ["Missing or invalid \"amount\" field"]) ++
  (match p.currency with
   | some s => if s = "" then ["Missing or invalid \"currency\" field"] else []
   | none => ["Missing or invalid \"currency\" field"]) ++
  (match p.merchant_data with
   | some _ => []
   | none => ["Missing or invalid \"merchant_data\" field"])

/-- One interleaving of two concurrent `handleTransactionWebhook` calls
for the same payload, at the `await` points of `webhookHandler.ts`: both
invocations complete their reads — the approval decision and the
`findById` existence check — before either performs its writes, then A
commits (record creation and balance update) followed by B.  Returns the
final store and both responses. -/
def interleavedSameId (db : DbState) (p : TransactionWebhookPayload) (now : Int) :
    DbState × WebhookResponse × WebhookResponse :=
  let resultA := processTransaction db p
  let existingA := mapGet db.transactions p.id
  let resultB := processTransaction db p
  let existingB := mapGet db.transactions p.id
  let db1 := commitPhase db p now resultA existingA
  let db2 := commitPhase db1 p now resultB existingB
  (db2, { approved := resultA.approved }, { approved := resultB.approved })

/-! ### Concrete fixtures used by witnesses and counterexamples -/

/-- Merchant data of the sample payloads. -/
def wMerchant : MerchantData :=
  { category := 5411
    address := { line_1 := "1 Main St", line_2 := none, city := "Springfield",
                 state := "IL", country := "US" } }

/-- Account `A1`: limit 100000, balance 0, active. -/
def wAccount : Account :=
  { id := "a1", creditLimit := 100000, currentBalance := 0,
    status := .active, createdAt := 0, updatedAt := 0 }

/-- Card `C1`: active, no spending limit, on account `A1`. -/
def wCard : Card :=
  { id := "c1", accountId := "a1", status := .active, spendingLimit := none,
    createdAt := 0, updatedAt := 0 }

/-- Payload `T1`: amount 50000 on card `C1`. -/
def wPayload : TransactionWebhookPayload :=
  { id := "t1", card_id := "c1", amount := 50000, currency := "USD",
    merchant_data := wMerchant }

/-- Store with `A1` and `C1` and no transactions. -/
def wFreshDb : DbState :=
  { accounts := [("a1", wAccount)], cards := [("c1", wCard)],
    transactions := [], statements := [] }

/-- A stored approved record for `T1` (as the first submission leaves it). -/
def wStoredTx : Transaction :=
  { id := "t1", cardId := "c1", accountId := "a1", amount := 50000,
    currency := "USD", merchantCategory := 5411,
    merchantAddress := { line1 := "1 Main St", line2 := none, city := "Springfield",
                         state := "IL", country := "US" },
    status := .approved, denialReason := none, createdAt := 7 }

/-- Store after `T1` was approved once: record present, balance 50000. -/
def wReplayDb : DbState :=
  { accounts := [("a1", { wAccount with currentBalance := 50000, updatedAt := 7 })],
    cards := [("c1", wCard)],
    transactions := [("t1", wStoredTx)], statements := [] }

/-- Card `C2`: active, spending limit present but 0, on account `A1`. -/
def zCard : Card :=
  { id := "c2", accountId := "a1", status := .active, spendingLimit := some 0,
    createdAt := 0, updatedAt := 0 }

/-- Store with `A1` and the zero-limit card `C2`. -/
def zDb : DbState :=
  { accounts := [("a1", wAccount)], cards := [("c2", zCard)],
    transactions := [], statements := [] }

/-- Payload `T2`: amount 15000 on the zero-limit card `C2`. -/
def zPayload : TransactionWebhookPayload :=
  { id := "t2", card_id := "c2", amount := 15000, currency := "USD",
    merchant_data := wMerchant }

/-- A prior statement for `A1` with closing balance 40000 over period
`[0, 100]`. -/
def sPrior : Statement :=
  { id := "s0", accountId := "a1", periodStart := 0, periodEnd := 100,
    openingBalance := 0, closingBalance := 40000, totalSpent := 40000,
    minimumPayment := 2500, dueDate := 125, createdAt := 100 }

/-- An approved transaction of 5000 for `A1` created at time 150. -/
def sTx1 : Transaction :=
  { wStoredTx with id := "x1", amount := 5000, createdAt := 150 }

/-- An approved transaction of 3000 for `A1` created at time 160. -/
def sTx2 : Transaction :=
  { wStoredTx with id := "x2", amount := 3000, createdAt := 160 }

/-- Store for the statement scenario: prior statement closing 40000 and
two approved transactions (5000, 3000) inside the next period. -/
def sDb : DbState :=
  { accounts := [("a1", wAccount)], cards := [("c1", wCard)],
    transactions := [("x1", sTx1), ("x2", sTx2)], statements := [sPrior] }

/-- A raw webhook body carrying a present, well-typed but negative
amount. -/
def nRaw : RawPayload :=
  { id := some "t9", card_id := some "c1", amount := some (-100),
    currency := some "USD", merchant_data := some wMerchant }

/-- The same body as the typed payload the handler receives. -/
def nPayload : TransactionWebhookPayload :=
  { id := "t9", card_id := "c1", amount := -100, currency := "USD",
    merchant_data := wMerchant }

/-! ### Association-map lemmas -/

theorem mapGet_mapSet_self {α : Type} (m : List (String × α)) (k : String) (v : α) :
    mapGet (mapSet m k v) k = some v := by
  induction m with
  | nil => simp [mapGet, mapSet]
  | cons p rest ih =>
      by_cases h : p.1 = k
      · simp [mapGet, mapSet, h]
      · simp [mapGet, mapSet, h, ih]

theorem mapGet_mapSet_ne {α : Type} (m : List (String × α)) (k k' : String) (v : α)
    (h : k' ≠ k) : mapGet (mapSet m k v) k' = mapGet m k' := by
  induction m with
  | nil => simp [mapGet, mapSet, Ne.symm h]
  | cons p rest ih =>
      by_cases hp : p.1 = k
      · simp [mapGet, mapSet, hp, Ne.symm h]
      · simp [mapGet, mapSet, hp, ih]

/-! ### Leaf characterizations of the rule chain -/

theorem proc_replay (db : DbState) (p : TransactionWebhookPayload) (t : Transaction)
    (h : mapGet db.transactions p.id = some t) :
    processTransaction db p =
      { approved := statusApproved t.status, reason := t.denialReason } := by
  simp [processTransaction, h]

theorem proc_no_card (db : DbState) (p : TransactionWebhookPayload)
    (hno : mapGet db.transactions p.id = none)
    (hc : mapGet db.cards p.card_id = none) :
    processTransaction db p = deny .card_not_found := by
  simp [processTransaction, hno, hc]

theorem proc_inactive_card (db : DbState) (p : TransactionWebhookPayload) (card : Card)
    (hno : mapGet db.transactions p.id = none)
    (hc : mapGet db.cards p.card_id = some card)
    (hs : card.status ≠ CardStatus.active) :
    processTransaction db p = deny .card_not_active := by
  simp [processTransaction, hno, hc, hs]

theorem proc_no_account (db : DbState) (p : TransactionWebhookPayload) (card : Card)
    (hno : mapGet db.transactions p.id = none)
    (hc : mapGet db.cards p.card_id = some card)
    (hs : card.status = CardStatus.active)
    (ha : mapGet db.accounts card.accountId = none) :
    processTransaction db p = deny .account_not_found := by
  simp [processTransaction, hno, hc, hs, ha]

theorem proc_inactive_account (db : DbState) (p : TransactionWebhookPayload)
    (card : Card) (account : Account)
    (hno : mapGet db.transactions p.id = none)
    (hc : mapGet db.cards p.card_id = some card)
    (hs : card.status = CardStatus.active)
    (ha : mapGet db.accounts card.accountId = some account)
    (has : account.status ≠ AccountStatus.active) :
    processTransaction db p = deny .account_not_active := by
  simp [processTransaction, hno, hc, hs, ha, has]

theorem proc_over_limit (db : DbState) (p : TransactionWebhookPayload)
    (card : Card) (account : Account)
    (hno : mapGet db.transactions p.id = none)
    (hc : mapGet db.cards p.card_id = some card)
    (hs : card.status = CardStatus.active)
    (ha : mapGet db.accounts card.accountId = some account)
    (has : account.status = AccountStatus.active)
    (hlim : account.currentBalance + p.amount > account.creditLimit) :
    processTransaction db p = deny .insufficient_credit := by
  simp [processTransaction, hno, hc, hs, ha, has, hlim]

theorem proc_card_limit (db : DbState) (p : TransactionWebhookPayload)
    (card : Card) (account : Account)
    (hno : mapGet db.transactions p.id = none)
    (hc : mapGet db.cards p.card_id = some card)
    (hs : card.status = CardStatus.active)
    (ha : mapGet db.accounts card.accountId = some account)
    (has : account.status = AccountStatus.active)
    (hlim : ¬ account.currentBalance + p.amount > account.creditLimit)
    (hcl : cardLimitExceeded card p.amount = true) :
    processTransaction db p = deny .exceeds_card_limit := by
  simp [processTransaction, hno, hc, hs, ha, has, hlim, hcl]

theorem proc_approved (db : DbState) (p : TransactionWebhookPayload)
    (card : Card) (account : Account)
    (hno : mapGet db.transactions p.id = none)
    (hc : mapGet db.cards p.card_id = some card)
    (hs : card.status = CardStatus.active)
    (ha : mapGet db.accounts card.accountId = some account)
    (has : account.status = AccountStatus.active)
    (hlim : ¬ account.currentBalance + p.amount > account.creditLimit)
    (hcl : cardLimitExceeded card p.amount = false) :
    processTransaction db p =
      { approved := true, card := some card, account := some account } := by
  simp [processTransaction, hno, hc, hs, ha, has, hlim, hcl]

/-- Inversion: an approval of a fresh request pins down an active card, an
active account, and a passed credit-limit check, and fixes the whole
result value. -/
theorem proc_approved_inv (db : DbState) (p : TransactionWebhookPayload)
    (hno : mapGet db.transactions p.id = none)
    (happ : (processTransaction db p).approved = true) :
    ∃ card account,
      mapGet db.cards p.card_id = some card ∧
      card.status = CardStatus.active ∧
      mapGet db.accounts card.accountId = some account ∧
      account.status = AccountStatus.active ∧
      account.currentBalance + p.amount ≤ account.creditLimit ∧
      cardLimitExceeded card p.amount = false ∧
      processTransaction db p =
        { approved := true, card := some card, account := some account } := by
  cases hc : mapGet db.cards p.card_id with
  | none => rw [proc_no_card db p hno hc] at happ; simp [deny] at happ
  | some card =>
    by_cases hs : card.status = CardStatus.active
    · cases ha : mapGet db.accounts card.accountId with
      | none => rw [proc_no_account db p card hno hc hs ha] at happ; simp [deny] at happ
      | some account =>
        by_cases has : account.status = AccountStatus.active
        · by_cases hlim : account.currentBalance + p.amount > account.creditLimit
          · rw [proc_over_limit db p card account hno hc hs ha has hlim] at happ
            simp [deny] at happ
          · cases hcl : cardLimitExceeded card p.amount with
            | true =>
                rw [proc_card_limit db p card account hno hc hs ha has hlim hcl] at happ
                simp [deny] at happ
            | false =>
                exact ⟨card, account, rfl, hs, ha, has, by omega,
                  hcl, proc_approved db p card account hno hc hs ha has hlim hcl⟩
        · rw [proc_inactive_account db p card account hno hc hs ha has] at happ
          simp [deny] at happ
    · rw [proc_inactive_card db p card hno hc hs] at happ; simp [deny] at happ

/-! ### C1 -/

/-- C1: when the payload's identifier already has a stored Transaction,
`handleTransactionWebhook` answers with the stored verdict
(`approved = (status == approved)`), creates no new record, and leaves
every account's `currentBalance` unchanged — indeed the whole store is
unchanged. -/
theorem C1_replay_returns_stored_verdict (db : DbState)
    (p : TransactionWebhookPayload) (now : Int) (t : Transaction)
    (h : mapGet db.transactions p.id = some t) :
    (handleTransactionWebhook db p now).2.approved = statusApproved t.status ∧
    (handleTransactionWebhook db p now).1 = db ∧
    (handleTransactionWebhook db p now).1.transactions = db.transactions ∧
    ∀ aid, (mapGet (handleTransactionWebhook db p now).1.accounts aid).map
        Account.currentBalance = (mapGet db.accounts aid).map Account.currentBalance := by
  have hp := proc_replay db p t h
  have hstate : (handleTransactionWebhook db p now).1 = db := by
    simp [handleTransactionWebhook, h, commitPhase]
  refine ⟨?_, hstate, by rw [hstate], fun aid => by rw [hstate]⟩
  simp [handleTransactionWebhook, hp]

/-- Witness for C1: resubmitting the already-approved `T1` answers
approved and leaves the store — balance 50000 included — untouched. -/
theorem C1_witness :
    (handleTransactionWebhook wReplayDb wPayload 8).2.approved = true ∧
    (handleTransactionWebhook wReplayDb wPayload 8).1 = wReplayDb := by
  have h := C1_replay_returns_stored_verdict wReplayDb wPayload 8 wStoredTx (by decide)
  exact ⟨h.1.trans (by decide), h.2.1⟩

/-! ### C2 -/

/-- C2: a fresh payload that the decision engine approves ends with the
referenced account's balance increased by exactly the payload amount and
an approved Transaction stored under the payload identifier. -/
theorem C2_approval_adds_amount_once (db : DbState) (p : TransactionWebhookPayload)
    (now : Int)
    (hno : mapGet db.transactions p.id = none)
    (happ : (processTransaction db p).approved = true) :
    ∃ card account,
      mapGet db.cards p.card_id = some card ∧
      mapGet db.accounts card.accountId = some account ∧
      (mapGet (handleTransactionWebhook db p now).1.accounts card.accountId).map
          Account.currentBalance = some (account.currentBalance + p.amount) ∧
      ∃ tx, mapGet (handleTransactionWebhook db p now).1.transactions p.id = some tx ∧
        tx.id = p.id ∧ tx.status = TransactionStatus.approved ∧ tx.amount = p.amount := by
  obtain ⟨card, account, hc, hs, ha, has, hlim, hcl, hres⟩ := proc_approved_inv db p hno happ
  refine ⟨card, account, hc, ha, ?_, ?_⟩
  · simp only [handleTransactionWebhook, hno, hres, commitPhase, updateBalance, ha]
    simp [mapGet_mapSet_self]
  · simp only [handleTransactionWebhook, hno, hres, commitPhase, updateBalance, ha]
    exact ⟨_, mapGet_mapSet_self _ _ _, rfl, rfl, rfl⟩

/-- Witness for C2: submitting `T1` against the fresh store yields a
stored approved record and balance 50000. -/
theorem C2_witness :
    ∃ card account,
      mapGet wFreshDb.cards wPayload.card_id = some card ∧
      mapGet wFreshDb.accounts card.accountId = some account ∧
      (mapGet (handleTransactionWebhook wFreshDb wPayload 7).1.accounts card.accountId).map
          Account.currentBalance = some (account.currentBalance + wPayload.amount) ∧
      ∃ tx, mapGet (handleTransactionWebhook wFreshDb wPayload 7).1.transactions wPayload.id
          = some tx ∧
        tx.id = wPayload.id ∧ tx.status = TransactionStatus.approved ∧
        tx.amount = wPayload.amount :=
  C2_approval_adds_amount_once wFreshDb wPayload 7 (by decide) (by decide)

/-! ### C3 -/

/-- C3: the rule chain short-circuits in the listed order.  A fresh
request whose card is absent is denied `card_not_found` whatever the
accounts hold; and each later reason can only be reported when every
earlier rule passed. -/
theorem C3_rule_order_short_circuit (db : DbState) (p : TransactionWebhookPayload)
    (hno : mapGet db.transactions p.id = none) :
    (mapGet db.cards p.card_id = none →
      processTransaction db p = deny DenialReason.card_not_found) ∧
    ((processTransaction db p).reason = some DenialReason.card_not_active →
      ∃ card, mapGet db.cards p.card_id = some card) ∧
    ((processTransaction db p).reason = some DenialReason.account_not_found →
      ∃ card, mapGet db.cards p.card_id = some card ∧
        card.status = CardStatus.active) ∧
    ((processTransaction db p).reason = some DenialReason.account_not_active →
      ∃ card account, mapGet db.cards p.card_id = some card ∧
        card.status = CardStatus.active ∧
        mapGet db.accounts card.accountId = some account) ∧
    ((processTransaction db p).reason = some DenialReason.insufficient_credit →
      ∃ card account, mapGet db.cards p.card_id = some card ∧
        card.status = CardStatus.active ∧
        mapGet db.accounts card.accountId = some account ∧
        account.status = AccountStatus.active) ∧
    ((processTransaction db p).reason = some DenialReason.exceeds_card_limit →
      ∃ card account, mapGet db.cards p.card_id = some card ∧
        card.status = CardStatus.active ∧
        mapGet db.accounts card.accountId = some account ∧
        account.status = AccountStatus.active ∧
        account.currentBalance + p.amount ≤ account.creditLimit) := by
  cases hc : mapGet db.cards p.card_id with
  | none =>
      rw [proc_no_card db p hno hc]
      simp [deny]
  | some card =>
    by_cases hs : card.status = CardStatus.active
    · cases ha : mapGet db.accounts card.accountId with
      | none =>
          rw [proc_no_account db p card hno hc hs ha]
          simp [deny, hs]
      | some account =>
        by_cases has : account.status = AccountStatus.active
        · by_cases hlim : account.currentBalance + p.amount > account.creditLimit
          · rw [proc_over_limit db p card account hno hc hs ha has hlim]
            simp [deny, hs, ha, has]
          · cases hcl : cardLimitExceeded card p.amount with
            | true =>
                rw [proc_card_limit db p card account hno hc hs ha has hlim hcl]
                refine ⟨by simp, by simp [deny], by simp [deny], by simp [deny],
                  by simp [deny], fun _ => ?_⟩
                exact ⟨card, account, rfl, hs, ha, has, not_lt.mp hlim⟩
            | false =>
                rw [proc_approved db p card account hno hc hs ha has hlim hcl]
                simp
        · rw [proc_inactive_account db p card account hno hc hs ha has]
          simp [deny, hs, ha]
    · rw [proc_inactive_card db p card hno hc hs]
      simp [deny]

/-- Witness for C3: a payload naming an unknown card is denied
`card_not_found` even though the store has an active healthy account. -/
theorem C3_witness :
    processTransaction
        { accounts := [("a1", wAccount)], cards := [], transactions := [],
          statements := [] }
        wPayload = deny DenialReason.card_not_found := by
  have h := C3_rule_order_short_circuit
    { accounts := [("a1", wAccount)], cards := [], transactions := [],
      statements := [] } wPayload (by decide)
  exact h.1 (by decide)

/-! ### C4 -/

/-- C4: the credit-limit rule is strict.  On a fresh request with active
card and account, a new balance exactly at the limit is never an
`insufficient_credit` denial (and is approved when the card-limit guard
passes too), and `insufficient_credit` is reported exactly when the new
balance strictly exceeds the limit. -/
theorem C4_credit_limit_strict (db : DbState) (p : TransactionWebhookPayload)
    (card : Card) (account : Account)
    (hno : mapGet db.transactions p.id = none)
    (hc : mapGet db.cards p.card_id = some card)
    (hs : card.status = CardStatus.active)
    (ha : mapGet db.accounts card.accountId = some account)
    (has : account.status = AccountStatus.active) :
    (account.currentBalance + p.amount = account.creditLimit →
      (processTransaction db p).reason ≠ some DenialReason.insufficient_credit) ∧
    (account.currentBalance + p.amount = account.creditLimit →
      cardLimitExceeded card p.amount = false →
      (processTransaction db p).approved = true) ∧
    ((processTransaction db p).reason = some DenialReason.insufficient_credit ↔
      account.currentBalance + p.amount > account.creditLimit) := by
  by_cases hlim : account.currentBalance + p.amount > account.creditLimit
  · rw [proc_over_limit db p card account hno hc hs ha has hlim]
    exact ⟨fun he => absurd hlim (by omega), fun he => absurd hlim (by omega),
      by simp [deny, hlim]⟩
  · refine ⟨?_, ?_, ?_⟩
    · intro _ hcontra
      cases hcl : cardLimitExceeded card p.amount with
      | true =>
          rw [proc_card_limit db p card account hno hc hs ha has hlim hcl] at hcontra
          simp [deny] at hcontra
      | false =>
          rw [proc_approved db p card account hno hc hs ha has hlim hcl] at hcontra
          simp at hcontra
    · intro _ hcl
      rw [proc_approved db p card account hno hc hs ha has hlim hcl]
    · constructor
      · intro hcontra
        cases hcl : cardLimitExceeded card p.amount with
        | true =>
            rw [proc_card_limit db p card account hno hc hs ha has hlim hcl] at hcontra
            simp [deny] at hcontra
        | false =>
            rw [proc_approved db p card account hno hc hs ha has hlim hcl] at hcontra
            simp at hcontra
      · intro h; exact absurd h hlim

/-- Witness for C4: amount 100000 against limit 100000 and balance 0
lands exactly on the limit and is approved. -/
theorem C4_witness :
    (processTransaction wFreshDb
        { wPayload with amount := 100000 }).approved = true := by
  have h := C4_credit_limit_strict wFreshDb { wPayload with amount := 100000 }
    wCard wAccount (by decide) (by decide) (by decide) (by decide) (by decide)
  exact h.2.1 (by decide) (by decide)

/-! ### C5 -/

/-- Counterexample to C5 as stated: the request passes rules 1–5, the
card's spending limit is set (to 0) and the amount exceeds it, yet the
verdict is approval, not an `exceeds_card_limit` denial — the guard uses
JS truthiness, and 0 is falsy. -/
theorem C5_counterexample :
    mapGet zDb.transactions zPayload.id = none ∧
    mapGet zDb.cards zPayload.card_id = some zCard ∧
    zCard.status = CardStatus.active ∧
    mapGet zDb.accounts zCard.accountId = some wAccount ∧
    wAccount.status = AccountStatus.active ∧
    wAccount.currentBalance + zPayload.amount ≤ wAccount.creditLimit ∧
    zCard.spendingLimit = some 0 ∧
    zPayload.amount > 0 ∧
    (processTransaction zDb zPayload).reason ≠ some DenialReason.exceeds_card_limit ∧
    (processTransaction zDb zPayload).approved = true := by
  decide

/-- C5 (amended): on a fresh request that passes rules 1–5, a set and
**non-zero** spending limit smaller than the amount yields an
`exceeds_card_limit` denial; an amount at most the set limit, or no set
limit, yields approval (a set limit of 0 is falsy and the rule is
skipped). -/
theorem C5_card_limit_amended (db : DbState) (p : TransactionWebhookPayload)
    (card : Card) (account : Account)
    (hno : mapGet db.transactions p.id = none)
    (hc : mapGet db.cards p.card_id = some card)
    (hs : card.status = CardStatus.active)
    (ha : mapGet db.accounts card.accountId = some account)
    (has : account.status = AccountStatus.active)
    (hlim : account.currentBalance + p.amount ≤ account.creditLimit) :
    (∀ l, card.spendingLimit = some l → l ≠ 0 → p.amount > l →
      processTransaction db p = deny DenialReason.exceeds_card_limit) ∧
    (∀ l, card.spendingLimit = some l → p.amount ≤ l →
      (processTransaction db p).approved = true) ∧
    (card.spendingLimit = none → (processTransaction db p).approved = true) ∧
    (card.spendingLimit = some 0 → (processTransaction db p).approved = true) := by
  have hlim' : ¬ account.currentBalance + p.amount > account.creditLimit := not_lt.mpr hlim
  refine ⟨?_, ?_, ?_, ?_⟩
  · intro l hsl hl0 hgt
    have hcl : cardLimitExceeded card p.amount = true := by
      simp [cardLimitExceeded, hsl, hl0, hgt]
    exact proc_card_limit db p card account hno hc hs ha has hlim' hcl
  · intro l hsl hle
    have hcl : cardLimitExceeded card p.amount = false := by
      simp [cardLimitExceeded, hsl, not_lt.mpr hle]
    rw [proc_approved db p card account hno hc hs ha has hlim' hcl]
  · intro hsl
    have hcl : cardLimitExceeded card p.amount = false := by
      simp [cardLimitExceeded, hsl]
    rw [proc_approved db p card account hno hc hs ha has hlim' hcl]
  · intro hsl
    have hcl : cardLimitExceeded card p.amount = false := by
      simp [cardLimitExceeded, hsl]
    rw [proc_approved db p card account hno hc hs ha has hlim' hcl]

/-- Witness for the amended C5: a card with spending limit 10000 and an
otherwise healthy account denies amount 15000 as `exceeds_card_limit`. -/
theorem C5_witness :
    processTransaction
        { accounts := [("a1", wAccount)],
          cards := [("c3", { zCard with id := "c3", spendingLimit := some 10000 })],
          transactions := [], statements := [] }
        { zPayload with id := "t3", card_id := "c3" }
      = deny DenialReason.exceeds_card_limit := by
  have h := C5_card_limit_amended
    { accounts := [("a1", wAccount)],
      cards := [("c3", { zCard with id := "c3", spendingLimit := some 10000 })],
      transactions := [], statements := [] }
    { zPayload with id := "t3", card_id := "c3" }
    { zCard with id := "c3", spendingLimit := some 10000 } wAccount
    (by decide) (by decide) (by decide) (by decide) (by decide) (by decide)
  exact h.1 10000 (by decide) (by decide) (by decide)

/-! ### C10 -/

/-- C10: a spending limit present but equal to 0 is falsy, so the
per-card rule is skipped: a fresh request on such a card is never denied
`exceeds_card_limit`, and whenever the credit-limit rule passes (active
card and account) the request is approved. -/
theorem C10_zero_limit_skipped (db : DbState) (p : TransactionWebhookPayload)
    (card : Card)
    (hno : mapGet db.transactions p.id = none)
    (hc : mapGet db.cards p.card_id = some card)
    (hz : card.spendingLimit = some 0) :
    (processTransaction db p).reason ≠ some DenialReason.exceeds_card_limit ∧
    (∀ account, card.status = CardStatus.active →
      mapGet db.accounts card.accountId = some account →
      account.status = AccountStatus.active →
      account.currentBalance + p.amount ≤ account.creditLimit →
      (processTransaction db p).approved = true) := by
  have hcl : cardLimitExceeded card p.amount = false := by
    simp [cardLimitExceeded, hz]
  constructor
  · by_cases hs : card.status = CardStatus.active
    · cases ha : mapGet db.accounts card.accountId with
      | none =>
          rw [proc_no_account db p card hno hc hs ha]; simp [deny]
      | some account =>
        by_cases has : account.status = AccountStatus.active
        · by_cases hlim : account.currentBalance + p.amount > account.creditLimit
          · rw [proc_over_limit db p card account hno hc hs ha has hlim]
            simp [deny]
          · rw [proc_approved db p card account hno hc hs ha has hlim hcl]
            simp
        · rw [proc_inactive_account db p card account hno hc hs ha has]
          simp [deny]
    · rw [proc_inactive_card db p card hno hc hs]; simp [deny]
  · intro account hs ha has hlim
    rw [proc_approved db p card account hno hc hs ha has (not_lt.mpr hlim) hcl]

/-- Witness for C10: the zero-limit card approves amount 15000 and the
reason is not `exceeds_card_limit`. -/
theorem C10_witness :
    (processTransaction zDb zPayload).reason ≠ some DenialReason.exceeds_card_limit ∧
    (processTransaction zDb zPayload).approved = true := by
  have h := C10_zero_limit_skipped zDb zPayload zCard (by decide) (by decide) (by decide)
  exact ⟨h.1, h.2 wAccount (by decide) (by decide) (by decide) (by decide)⟩

/-! ### C6 -/

/-- C6 fails on the code: under the interleaving where both submissions
of `T1` pass their idempotency checks before either writes, both are
answered approved and exactly one Transaction record results, but the
account balance is mutated twice — it ends at 100000 although a single
application of the 50000 charge leaves 50000.  Nothing in
`webhookHandler.ts` or `db/index.ts` makes the check-then-create-then-add
sequence atomic per identifier. -/
theorem C6_same_id_race_double_charge :
    (mapGet (interleavedSameId wFreshDb wPayload 7).1.accounts "a1").map
        Account.currentBalance = some 100000 ∧
    (interleavedSameId wFreshDb wPayload 7).1.transactions.length = 1 ∧
    (interleavedSameId wFreshDb wPayload 7).2.1.approved = true ∧
    (interleavedSameId wFreshDb wPayload 7).2.2.approved = true ∧
    (mapGet (handleTransactionWebhook wFreshDb wPayload 7).1.accounts "a1").map
        Account.currentBalance = some 50000 := by
  decide

/-! ### C7 -/

/-- C7: the minimum payment is 0 for a non-positive closing balance, the
full balance below the 2500 floor, and otherwise the larger of the exact
ceiling of two percent and the floor; the last two conjuncts pin
`ceilTwoPercent` to the exact ceiling of `balance * 2 / 100`. -/
theorem C7_minimum_payment (b : Int) :
    (b ≤ 0 → calculateMinimumPayment b = 0) ∧
    (0 < b → b < 2500 → calculateMinimumPayment b = b) ∧
    (2500 ≤ b → calculateMinimumPayment b = max (ceilTwoPercent b) 2500) ∧
    b * 2 ≤ 100 * ceilTwoPercent b ∧
    100 * ceilTwoPercent b < b * 2 + 100 := by
  have h1 : 100 * ((-(b * 2)).ediv 100) + (-(b * 2)).emod 100 = -(b * 2) :=
    Int.ediv_add_emod _ _
  have h2 : 0 ≤ (-(b * 2)).emod 100 := Int.emod_nonneg _ (by norm_num)
  have h3 : (-(b * 2)).emod 100 < 100 := Int.emod_lt_of_pos _ (by norm_num)
  refine ⟨fun hb => by simp [calculateMinimumPayment, hb], fun hb1 hb2 => ?_,
    fun hb => ?_, ?_, ?_⟩
  · simp [calculateMinimumPayment, not_le.mpr hb1, hb2]
  · simp [calculateMinimumPayment, show ¬ b ≤ 0 by omega, show ¬ b < 2500 by omega]
  · unfold ceilTwoPercent; omega
  · unfold ceilTwoPercent; omega

/-- Witness for C7: a closing balance exactly at the floor pays the
floor, through the `max` rule. -/
theorem C7_witness :
    calculateMinimumPayment 2500 = max (ceilTwoPercent 2500) 2500 ∧
    calculateMinimumPayment 2500 = 2500 := by
  have h := (C7_minimum_payment 2500).2.2.1 (by norm_num)
  exact ⟨h, h.trans (by decide)⟩

/-! ### findLatest lemmas -/

theorem laterStatement_foldl_spec (l : List Statement) :
    ∀ (acc : Option Statement) (s0 : Statement),
      l.foldl laterStatement acc = some s0 →
      (s0 ∈ l ∨ acc = some s0) ∧
      (∀ s ∈ l, s.periodEnd ≤ s0.periodEnd) ∧
      (∀ b, acc = some b → b.periodEnd ≤ s0.periodEnd) := by
  induction l with
  | nil =>
      intro acc s0 h
      simp only [List.foldl_nil] at h
      refine ⟨Or.inr h, by simp, fun b hb => ?_⟩
      rw [hb] at h
      obtain rfl := Option.some.inj h
      exact le_refl _
  | cons s t ih =>
      intro acc s0 h
      simp only [List.foldl_cons] at h
      obtain ⟨hmem, hall, hacc⟩ := ih (laterStatement acc s) s0 h
      have hs_le : s.periodEnd ≤ s0.periodEnd := by
        cases acc with
        | none => exact hacc s rfl
        | some b =>
            by_cases hlt : b.periodEnd < s.periodEnd
            · exact hacc s (by simp [laterStatement, hlt])
            · exact le_trans (not_lt.mp hlt) (hacc b (by simp [laterStatement, hlt]))
      refine ⟨?_, ?_, ?_⟩
      · cases hmem with
        | inl hin => exact Or.inl (List.mem_cons_of_mem _ hin)
        | inr heq =>
            cases acc with
            | none =>
                simp only [laterStatement] at heq
                obtain rfl := Option.some.inj heq
                exact Or.inl (List.mem_cons_self _ _)
            | some b =>
                simp only [laterStatement] at heq
                by_cases hlt : b.periodEnd < s.periodEnd
                · rw [if_pos hlt] at heq
                  obtain rfl := Option.some.inj heq
                  exact Or.inl (List.mem_cons_self _ _)
                · rw [if_neg hlt] at heq
                  exact Or.inr heq
      · intro x hx
        rcases List.mem_cons.mp hx with rfl | hx'
        · exact hs_le
        · exact hall x hx'
      · intro b hb
        subst hb
        by_cases hlt : b.periodEnd < s.periodEnd
        · exact le_trans (le_of_lt hlt) hs_le
        · exact hacc b (by simp [laterStatement, hlt])

theorem laterStatement_foldl_some (t : List Statement) :
    ∀ b : Statement, (t.foldl laterStatement (some b)).isSome = true := by
  induction t with
  | nil => intro b; rfl
  | cons s t ih =>
      intro b
      simp only [List.foldl_cons, laterStatement]
      by_cases hlt : b.periodEnd < s.periodEnd
      · rw [if_pos hlt]; exact ih s
      · rw [if_neg hlt]; exact ih b

/-- When `findLatest` answers, the statement belongs to the account and
its `periodEnd` is greatest among the account's statements. -/
theorem findLatest_spec (statements : List Statement) (accountId : String)
    (s0 : Statement) (h : findLatest statements accountId = some s0) :
    s0 ∈ statements ∧ s0.accountId = accountId ∧
    ∀ s ∈ statements, s.accountId = accountId → s.periodEnd ≤ s0.periodEnd := by
  obtain ⟨hmem, hall, -⟩ := laterStatement_foldl_spec _ none s0 h
  cases hmem with
  | inr h' => cases h'
  | inl hin =>
      have hm := List.mem_filter.mp hin
      refine ⟨hm.1, by simpa using hm.2, ?_⟩
      intro s hs hsid
      exact hall s (List.mem_filter.mpr ⟨hs, by simp [hsid]⟩)

/-- When `findLatest` answers `none`, the account has no statement. -/
theorem findLatest_none (statements : List Statement) (accountId : String)
    (h : findLatest statements accountId = none) :
    ∀ s ∈ statements, s.accountId ≠ accountId := by
  intro s hs hsid
  have hmem : s ∈ statements.filter (fun s => decide (s.accountId = accountId)) :=
    List.mem_filter.mpr ⟨hs, by simp [hsid]⟩
  unfold findLatest at h
  cases hfil : statements.filter (fun s => decide (s.accountId = accountId)) with
  | nil => rw [hfil] at hmem; cases hmem
  | cons x rest =>
      rw [hfil] at h
      simp only [List.foldl_cons, laterStatement] at h
      have hsome := laterStatement_foldl_some rest x
      rw [h] at hsome
      cases hsome

/-! ### C8 -/

/-- C8: the generated statement's opening balance is the closing balance
of the account's statement with greatest `periodEnd` (0 if the account
has none), its total spent sums the approved transactions of the account
created inside `[periodStart, periodEnd]`, both endpoints included, and
its closing balance is opening plus spent. -/
theorem C8_statement_generation (db : DbState) (accountId : String)
    (periodStart periodEnd : Int) (newId : String) (now : Int) :
    ((generateStatementForAccount db accountId periodStart periodEnd newId now).2.openingBalance
      = match findLatest db.statements accountId with
        | some s => s.closingBalance
        | none => 0) ∧
    (∀ s0, findLatest db.statements accountId = some s0 →
      s0 ∈ db.statements ∧ s0.accountId = accountId ∧
      ∀ s ∈ db.statements, s.accountId = accountId → s.periodEnd ≤ s0.periodEnd) ∧
    (findLatest db.statements accountId = none →
      (generateStatementForAccount db accountId periodStart periodEnd
        newId now).2.openingBalance = 0 ∧
      ∀ s ∈ db.statements, s.accountId ≠ accountId) ∧
    ((generateStatementForAccount db accountId periodStart periodEnd newId now).2.totalSpent
      = ((db.transactions.map Prod.snd).filter fun tx =>
          decide (tx.accountId = accountId) &&
          (decide (tx.createdAt ≥ periodStart) && decide (tx.createdAt ≤ periodEnd)) &&
          decide (tx.status = TransactionStatus.approved)).foldl
          (fun sum tx => sum + tx.amount) 0) ∧
    ((generateStatementForAccount db accountId periodStart periodEnd newId now).2.closingBalance
      = (generateStatementForAccount db accountId periodStart periodEnd
          newId now).2.openingBalance
        + (generateStatementForAccount db accountId periodStart periodEnd
            newId now).2.totalSpent) := by
  refine ⟨rfl, fun s0 h => findLatest_spec _ _ s0 h,
    fun h => ⟨by simp [generateStatementForAccount, h], findLatest_none _ _ h⟩, rfl, rfl⟩

/-- Witness for C8: prior closing 40000 plus approved 5000 and 3000 in
the period gives opening 40000, spent 8000, closing 48000; the prior
statement is the account's latest. -/
theorem C8_witness :
    (generateStatementForAccount sDb "a1" 101 200 "s1" 200).2.openingBalance = 40000 ∧
    (generateStatementForAccount sDb "a1" 101 200 "s1" 200).2.totalSpent = 8000 ∧
    (generateStatementForAccount sDb "a1" 101 200 "s1" 200).2.closingBalance = 48000 ∧
    sPrior ∈ sDb.statements := by
  have h := C8_statement_generation sDb "a1" 101 200 "s1" 200
  exact ⟨h.1.trans (by decide), h.2.2.2.1.trans (by decide),
    (h.2.2.2.2).trans (by decide), (h.2.1 sPrior (by decide)).1⟩

/-! ### C9 -/

/-- C9 fails on the code: a payload with a present, well-typed but
negative amount passes `validateWebhookPayload` (the check is only
`p.amount == null` plus a typeof test), is approved by the rule chain
(a negative charge only lowers the prospective balance), and a
Transaction record with amount -100 is persisted, lowering the account
balance — so a stored Transaction with negative amount exists. -/
theorem C9_negative_amount_persisted :
    validateWebhookPayload nRaw = [] ∧
    nPayload.amount < 0 ∧
    (handleTransactionWebhook wFreshDb nPayload 7).2.approved = true ∧
    (mapGet (handleTransactionWebhook wFreshDb nPayload 7).1.transactions "t9").map
        Transaction.amount = some (-100) ∧
    (mapGet (handleTransactionWebhook wFreshDb nPayload 7).1.accounts "a1").map
        Account.currentBalance = some (-100) := by
  decide

end ExponentFi
